import Mathlib

/-!
# remote-config: typed snapshot construction, per-sheet cache and token renewal

A shallow embedding of `main.go` (`handleSheet`, `saveToken`, `refreshToken`)
and the properties of its cell coercion, its cache gate and its renewal
threshold.

Conventions of the embedding.

* Go strings are Lean `String`s; `==` on strings is `=`.
* A Go `map[string]T` is an association list with at most one entry per key
  (`GoMap`); a nil map is `none : Option (GoMap T)`.
* `time.Time` is an integer count of nanoseconds since the Unix epoch,
  `time.Duration` a signed 64-bit count of nanoseconds.
* Library calls that touch the outside world (file reads, the Sheets request,
  the token endpoint, the clock) are fields of a `World` record.
* `strconv.ParseInt` is embedded from the Go standard library for base 10 and
  64 bits; `strconv.ParseFloat` is a parameter.
-/

namespace RemoteConfig

/-! ## Constants (`main.go` lines 22-29) -/

/-- One second as a `time.Duration` (nanoseconds). -/
def Second : Int := 1000000000

def SPREADSHEET : String := "PUT-YOUR-SPREADSHEET-ID-HERE"
def CREDENTIALS_FILE : String := "credentials.json"
def TOKEN_FILE : String := "token.json"
def TOKEN_REFRESH_INTERVAL : Int := 30 * 60 * Second
/-- The value the source compiles with; `handleSheet` below takes the flag as
an argument so that both settings can be discussed. -/
def CACHE_DATA : Bool := false
def CACHE_INTERVAL : Int := 5 * 60 * Second

/-! ## Machine integers and time -/

def minInt64 : Int := -(2 ^ 63)
def maxInt64 : Int := 2 ^ 63 - 1
def maxUint64 : Nat := 2 ^ 64 - 1

/-- Two's-complement reduction of an integer to the `int64` range. -/
def wrapInt64 (x : Int) : Int := (x + 2 ^ 63) % 2 ^ 64 - 2 ^ 63

/-- A `time.Time`: nanoseconds since the Unix epoch. -/
abbrev Time := Int

/-- The zero `time.Time` (January 1, year 1, 00:00 UTC). -/
def zeroTime : Time := -62135596800 * Second

/-- Go `t.Sub(u)`: the duration `t - u`, saturated to the `int64` range. -/
def Time.Sub (t u : Time) : Int :=
  if t - u > maxInt64 then maxInt64
  else if t - u < minInt64 then minInt64
  else t - u

/-- Go `t.Add(d)`. -/
def Time.Add (t : Time) (d : Int) : Time := t + d

/-! ## Go maps -/

/-- A non-nil Go `map[string]α`. -/
abbrev GoMap (α : Type) := List (String × α)

/-- Go `v, ok := m[k]`. -/
def GoMap.get? {α : Type} (m : GoMap α) (k : String) : Option α :=
  List.lookup k m

/-- Go `m[k] = v`. -/
def GoMap.set {α : Type} (m : GoMap α) (k : String) (v : α) : GoMap α :=
  (k, v) :: m.filter (fun p => p.1 != k)

/-! ## strconv -/

inductive NumError where
  | errSyntax
  | errRange
  deriving DecidableEq, Repr

deriving instance DecidableEq for Except

/-- Go `lower(c)` of `strconv`: `c | ('x' - 'X')`. -/
def lower (c : Nat) : Nat := c ||| 0x20

/-- One iteration of the digit loop of `strconv.ParseUint(s, 10, 64)`.
`n` is the `uint64` accumulator. The source loops over bytes; every byte of a
multi-byte UTF-8 character is at least `0x80` and takes the `default` arm, as
the character itself does here. -/
def parseUintStep (n : Nat) (c : Char) : Except NumError Nat :=
  let b := c.toNat
  let d? : Option Nat :=
    if 48 ≤ b ∧ b ≤ 57 then some (b - 48)
    else if 97 ≤ lower b ∧ lower b ≤ 122 then some (lower b - 97 + 10)
    else none
  match d? with
  | none => .error .errSyntax
  | some d =>
    if d ≥ 10 then .error .errSyntax
    else if n ≥ maxUint64 / 10 + 1 then .error .errRange
    else
      let n10 := (n * 10) % 2 ^ 64
      let n1 := (n10 + d) % 2 ^ 64
      if n1 < n10 ∨ n1 > maxUint64 then .error .errRange
      else .ok n1

/-- Go `strconv.ParseUint(s, 10, 64)` on the characters of `s`. -/
def ParseUint (s : List Char) : Except NumError Nat :=
  if s = [] then .error .errSyntax
  else s.foldlM parseUintStep 0

/-- Go `strconv.ParseInt(s, 10, 64)`. -/
def ParseInt (s : String) : Except NumError Int :=
  match s.data with
  | [] => .error .errSyntax
  | c :: rest =>
    let neg := decide (c = '-')
    let body := if c = '+' then rest else if c = '-' then rest else c :: rest
    match ParseUint body with
    | .error .errSyntax => .error .errSyntax
    | r =>
      let un : Nat := match r with
        | .ok u => u
        | .error _ => maxUint64
      let cutoff : Nat := 2 ^ 63
      if !neg && decide (un ≥ cutoff) then .error .errRange
      else if neg && decide (un > cutoff) then .error .errRange
      else
        let n := wrapInt64 un
        .ok (if neg then wrapInt64 (-n) else n)

/-! ## Values -/

/-- A `float64`: a finite value (as the rational it denotes), negative zero, an
infinity or a NaN. -/
inductive Float64 where
  | finite (q : ℚ)
  | negZero
  | inf (neg : Bool)
  | nan
  deriving DecidableEq

/-- The dynamic values `handleSheet` puts in an `interface{}`: `bool`, `nil`,
`int64`, `float64`, `string`. -/
inductive Value where
  | bool (b : Bool)
  | null
  | int64 (i : Int)
  | float64 (f : Float64)
  | str (s : String)
  deriving DecidableEq

/-- The snapshot of one sheet: `map[string]interface{}`. -/
abbrev Snapshot := GoMap Value

/-- A cell of `resp.Values` (`interface{}`): a string, or anything else. -/
inductive Cell where
  | str (s : String)
  | other
  deriving DecidableEq

/-- The `if`/`else if` chain of `handleSheet`, lines 217-229: the value stored
for the raw string `value`. `ParseFloat s = some f` stands for
`strconv.ParseFloat(s, 64)` returning `f` with a nil error. -/
def coerce (ParseFloat : String → Option Float64) (value : String) : Value :=
  if value = "true" ∨ value = "TRUE" then .bool true
  else if value = "false" ∨ value = "FALSE" then .bool false
  else if value = "null" then .null
  else match ParseInt value with
    | .ok i => .int64 i
    | .error _ =>
      match ParseFloat value with
      | some f => .float64 f
      | none => .str value

/-- The body of the loop over `resp.Values`, lines 203-230. `none` is the
runtime panic of a failed type assertion `row[i].(string)`. -/
def storeRow (ParseFloat : String → Option Float64) (configDataSheet : Snapshot)
    (row : List Cell) : Option Snapshot :=
  match row with
  | [] => some configDataSheet
  | .other :: _ => none
  | .str key :: rest =>
    match rest with
    | [] => some (configDataSheet.set key (coerce ParseFloat ""))
    | .other :: _ => none
    | .str value :: _ => some (configDataSheet.set key (coerce ParseFloat value))

/-- Lines 202-230: the snapshot built from the fetched rows. -/
def buildSnapshot (ParseFloat : String → Option Float64) (rows : List (List Cell)) :
    Option Snapshot :=
  rows.foldlM (storeRow ParseFloat) []

/-! ## The outside world -/

/-- Go `url.Values`: `map[string][]string`. -/
abbrev Values := GoMap (List String)

/-- The fields of `oauth2.Config` the program reads. -/
structure OAuthConfig where
  ClientID : String
  ClientSecret : String
  deriving DecidableEq

/-- An `oauth2.Token`. -/
structure Token where
  AccessToken : String
  TokenType : String
  RefreshToken : String
  Expiry : Time
  deriving DecidableEq

/-- A decoded JSON value (`interface{}` after `json.Unmarshal`). -/
inductive JSON where
  | null
  | bool (b : Bool)
  | number (f : Float64)
  | string (s : String)
  | other
  deriving DecidableEq

/-- The observable input/output actions, in the order they are performed. -/
inductive Effect where
  | readFile (path : String)
  | sheetsGet (spreadsheet : String) (range : String)
  | postForm (url : String) (form : Values)
  | openFileTrunc (path : String)
  deriving DecidableEq

/-- What the library calls of one run return. An `Except String α` is a Go
`(α, error)` pair, the string being `err.Error()`. -/
structure World where
  /-- Go `strconv.ParseFloat(s, 64)`; `some f` when the error is nil. -/
  ParseFloat : String → Option Float64
  /-- Go `ioutil.ReadFile(CREDENTIALS_FILE)`. -/
  readCredentials : Except String String
  /-- Go `google.ConfigFromJSON(b, scope)`. -/
  ConfigFromJSON : String → Except String OAuthConfig
  /-- Go `os.Open(TOKEN_FILE)` and, when it opens, the result of decoding it. -/
  tokenFile : Except String (Except String Token)
  /-- Go `sheets.New(client)`. -/
  sheetsNew : Except String Unit
  /-- Go `srv.Spreadsheets.Values.Get(SPREADSHEET, range).Do()`: the rows. -/
  valuesGet : String → Except String (List (List Cell))
  /-- Go `time.Now()` at line 173. -/
  now : Time
  /-- Go `time.Now()` at line 234. -/
  nowInstall : Time
  /-- Go `http.PostForm(url, form)` and, when it answers, `ioutil.ReadAll` of the
  body. -/
  postForm : String → Values → Except String (Except String String)
  /-- Go `json.Unmarshal(body, &m)` into a nil `map[string]interface{}`, the
  error dropped: `none` when the map is still nil afterwards. -/
  jsonUnmarshal : String → Option (GoMap JSON)
  /-- Go `time.Now()` at line 295. -/
  nowTick : Time
  /-- Go `time.Now()` at line 316. -/
  nowThen : Time
  /-- The error of `os.OpenFile(TOKEN_FILE, O_RDWR|O_CREATE|O_TRUNC, 0600)`. -/
  openTokenFile : Option String
  /-- Whether `json.NewEncoder(f).Encode(token)` writes the token. -/
  encodeOk : Bool
  /-- The implementation-dependent result of converting an out-of-range
  `float64` to `int64`. -/
  outOfRangeInt64 : Float64 → Int

/-! ## The cache and `handleSheet` -/

/-- The two package-level maps, `configData` and `lastConfigGetTime`. -/
structure Cache where
  configData : GoMap Snapshot
  lastConfigGetTime : GoMap Time
  deriving DecidableEq

/-- The `interface{}` that `handleSheet` returns: a sheet's map (nil when
`none`) or a single dynamic value; messages are string values. -/
inductive Data where
  | sheet (m : Option Snapshot)
  | value (v : Value)
  deriving DecidableEq

/-- The result of one call: what is returned (`none` when the call panics),
the cache afterwards and the actions performed. -/
structure SheetResult where
  ret : Option (Nat × Data)
  cache : Cache
  trace : List Effect
  deriving DecidableEq

/-- Retrieves a token from a local file (lines 256-265). -/
def tokenFromFile (w : World) : Except String Token :=
  match w.tokenFile with
  | .error err => .error err
  | .ok decoded => decoded

/-- Line 173 (with `ok` of line 172): `cacheIsExpired`. -/
def cacheIsExpired (c : Cache) (sheet : String) (now : Time) : Bool :=
  let ok := (c.lastConfigGetTime.get? sheet).isSome
  !ok || decide (Time.Sub now ((c.lastConfigGetTime.get? sheet).getD zeroTime) ≥ CACHE_INTERVAL)

/-- Lines 243-252: the answer for `query` from the sheet's map. -/
def answer (configDataSheet : Option Snapshot) (query : Values) : Option (Nat × Data) :=
  if query.length = 0 then some (200, .sheet configDataSheet)
  else
    match query.get? "key" with
    | some vals =>
      match vals with
      | [] => none
      | k :: _ =>
        match configDataSheet.bind (fun m => m.get? k) with
        | some v => some (200, .value v)
        | none => some (404, .value (.str ("Error: key " ++ k ++ " is not in sheet.")))
    | none => some (400, .value (.str "Error: key param is not in url."))

/-- The function `handleSheet` (lines 167-253), with the constant `CACHE_DATA`
as its first argument. Inside the block of line 176 `configDataSheet` is the
fresh map of line 202, never nil, so lines 238-242 read `configData[sheet]`
exactly when the block was skipped: the last branch below. -/
def handleSheet (CACHE_DATA : Bool) (w : World) (c : Cache) (sheet : String)
    (query : Values) : SheetResult :=
  let expired : Bool := if CACHE_DATA then cacheIsExpired c sheet w.now else false
  if !CACHE_DATA || expired then
    match w.readCredentials with
    | .error err =>
      ⟨some (400, .value (.str ("Unable to read client secret file: " ++ err))), c,
        [.readFile CREDENTIALS_FILE]⟩
    | .ok b =>
    match w.ConfigFromJSON b with
    | .error err =>
      ⟨some (400, .value (.str ("Unable to parse client secret file to config: " ++ err))), c,
        [.readFile CREDENTIALS_FILE]⟩
    | .ok _ =>
    match tokenFromFile w with
    | .error err =>
      ⟨some (400, .value (.str ("Error: " ++ err))), c,
        [.readFile CREDENTIALS_FILE, .readFile TOKEN_FILE]⟩
    | .ok _ =>
    match w.sheetsNew with
    | .error err =>
      ⟨some (400, .value (.str ("Unable to retrieve Sheets client: " ++ err))), c,
        [.readFile CREDENTIALS_FILE, .readFile TOKEN_FILE]⟩
    | .ok _ =>
    let trace := [.readFile CREDENTIALS_FILE, .readFile TOKEN_FILE,
      .sheetsGet SPREADSHEET (sheet ++ "!A:B")]
    match w.valuesGet (sheet ++ "!A:B") with
    | .error err =>
      ⟨some (400, .value (.str ("Unable to retrieve data from sheet: " ++ err))), c, trace⟩
    | .ok rows =>
    match buildSnapshot w.ParseFloat rows with
    | none => ⟨none, c, trace⟩
    | some configDataSheet =>
      let c1 : Cache :=
        if CACHE_DATA then
          { configData := c.configData.set sheet configDataSheet,
            lastConfigGetTime := c.lastConfigGetTime.set sheet w.nowInstall }
        else c
      ⟨answer (some configDataSheet) query, c1, trace⟩
  else
    ⟨answer (c.configData.get? sheet) query, c, []⟩

/-- The number of Sheets requests among the actions of a call. -/
def remoteFetches (trace : List Effect) : Nat :=
  trace.countP (fun e => match e with
    | .sheetsGet _ _ => true
    | _ => false)

/-! ## `saveToken` and `refreshToken` -/

/-- How a call ends: it returns, it panics, or `log.Fatalf` exits the
process. -/
inductive Exit where
  | returned
  | panicked
  | fatal
  deriving DecidableEq

/-- What a run did to the token file. -/
inductive FileWrite where
  | untouched
  | truncated
  | wrote (t : Token)
  deriving DecidableEq

/-- The lines `refreshToken` prints. -/
inductive LogLine where
  | errorRenewing (err : String)
  | refreshed
  | noNeed
  deriving DecidableEq

structure RefreshResult where
  exit : Exit
  tokenFile : FileWrite
  trace : List Effect
  out : List LogLine
  deriving DecidableEq

/-- Saves a token to a file path (lines 268-276), for `path = TOKEN_FILE`. -/
def saveToken (w : World) (token : Token) : Exit × FileWrite :=
  match w.openTokenFile with
  | some _ => (.fatal, .untouched)
  | none => if w.encodeOk then (.returned, .wrote token) else (.returned, .truncated)

/-- Go `time.Duration(f)` for a `float64`: truncation toward zero. -/
def durationOfFloat (w : World) (f : Float64) : Int :=
  match f with
  | .finite q =>
    if minInt64 ≤ Int.tdiv q.num q.den ∧ Int.tdiv q.num q.den ≤ maxInt64 then Int.tdiv q.num q.den
    else wrapInt64 (w.outOfRangeInt64 f)
  | .negZero => 0
  | f => wrapInt64 (w.outOfRangeInt64 f)

/-- The form of the refresh-grant request (line 296). -/
def refreshForm (config : OAuthConfig) (tok : Token) : Values :=
  [("client_id", [config.ClientID]), ("client_secret", [config.ClientSecret]),
   ("refresh_token", [tok.RefreshToken]), ("grant_type", ["refresh_token"])]

def TOKEN_URL : String := "https://www.googleapis.com/oauth2/v3/token"

/-- The function `refreshToken` (lines 278-330). -/
def refreshToken (w : World) : RefreshResult :=
  match tokenFromFile w with
  | .error err => ⟨.returned, .untouched, [.readFile TOKEN_FILE], [.errorRenewing err]⟩
  | .ok tok =>
  match w.readCredentials with
  | .error err =>
    ⟨.returned, .untouched, [.readFile TOKEN_FILE, .readFile CREDENTIALS_FILE], [.errorRenewing err]⟩
  | .ok b =>
  let files := [Effect.readFile TOKEN_FILE, .readFile CREDENTIALS_FILE]
  match w.ConfigFromJSON b with
  | .error err => ⟨.returned, .untouched, files, [.errorRenewing err]⟩
  | .ok config =>
  if Time.Sub tok.Expiry w.nowTick < TOKEN_REFRESH_INTERVAL + 5 * 60 * Second then
    let urlValue := refreshForm config tok
    let posted := files ++ [.postForm TOKEN_URL urlValue]
    match w.postForm TOKEN_URL urlValue with
    | .error err => ⟨.returned, .untouched, posted, [.errorRenewing err]⟩
    | .ok (.error err) => ⟨.returned, .untouched, posted, [.errorRenewing err]⟩
    | .ok (.ok body) =>
      let refreshToken := w.jsonUnmarshal body
      match refreshToken.bind (fun m => m.get? "expires_in") with
      | some (.number f) =>
        let then_ := Time.Add w.nowThen (wrapInt64 (durationOfFloat w f * Second))
        match refreshToken.bind (fun m => m.get? "access_token") with
        | some (.string accessToken) =>
          let tok1 : Token := { tok with Expiry := then_, AccessToken := accessToken }
          match saveToken w tok1 with
          | (.returned, fw) =>
            ⟨.returned, fw, posted ++ [.openFileTrunc TOKEN_FILE], [.refreshed]⟩
          | (e, fw) => ⟨e, fw, posted ++ [.openFileTrunc TOKEN_FILE], []⟩
        | _ => ⟨.panicked, .untouched, posted, []⟩
      | _ => ⟨.panicked, .untouched, posted, []⟩
  else
    ⟨.returned, .untouched, files, [.noNeed]⟩

/-! ## Specification-side notions -/

/-- Equality of two strings ignoring letter case. -/
def equalsIgnoringCase (a b : String) : Prop :=
  a.data.map Char.toLower = b.data.map Char.toLower

instance (a b : String) : Decidable (equalsIgnoringCase a b) := by
  unfold equalsIgnoringCase; infer_instance

/-- The number a string of decimal digits denotes, most significant digit
first. -/
def decimalValue (ds : List Char) : Nat :=
  Nat.ofDigits 10 (ds.reverse.map (fun c => c.toNat - 48))

/-- The key cell of a fetched row, when the row has a first cell and it is a
string. -/
def rowKey : List Cell → Option String
  | .str key :: _ => some key
  | _ => none

/-- The raw value of a fetched row: its second cell, the empty string when
the row has none. -/
def rowValue : List Cell → String
  | _ :: .str value :: _ => value
  | _ => ""

/-- The last of the rows whose key cell is `k`. -/
def lastRowWithKey (k : String) (rows : List (List Cell)) : Option (List Cell) :=
  (rows.filter (fun row => decide (rowKey row = some k))).getLast?

/-- The sheet has no recorded last-fetch time, or the time since it is at
least `CACHE_INTERVAL` (an exact difference of times, not a saturated
`Duration`). -/
def isStale (c : Cache) (sheet : String) (now : Time) : Prop :=
  match c.lastConfigGetTime.get? sheet with
  | none => True
  | some t => now - t ≥ CACHE_INTERVAL

instance (c : Cache) (sheet : String) (now : Time) : Decidable (isStale c sheet now) := by
  unfold isStale; split <;> infer_instance

/-- The steps of `handleSheet` before the Sheets request all succeed: the
credentials file is read and parsed, the token file is read and decoded, the
Sheets client is built. -/
def World.setupOk (w : World) : Bool :=
  match w.readCredentials with
  | .error _ => false
  | .ok b =>
    match w.ConfigFromJSON b with
    | .error _ => false
    | .ok _ =>
      match tokenFromFile w with
      | .error _ => false
      | .ok _ =>
        match w.sheetsNew with
        | .error _ => false
        | .ok _ => true

/-- The actions of a call that reaches the Sheets request. -/
def fetchTrace (sheet : String) : List Effect :=
  [.readFile CREDENTIALS_FILE, .readFile TOKEN_FILE, .sheetsGet SPREADSHEET (sheet ++ "!A:B")]

/-- The cache after a snapshot is installed for `sheet` (lines 231-236). -/
def installed (CACHE_DATA : Bool) (c : Cache) (sheet : String) (snap : Snapshot)
    (now : Time) : Cache :=
  if CACHE_DATA then
    { configData := c.configData.set sheet snap,
      lastConfigGetTime := c.lastConfigGetTime.set sheet now }
  else c

/-- A token used in the examples; it expires at second 4000. -/
def sampleToken : Token :=
  { AccessToken := "at0", TokenType := "Bearer", RefreshToken := "rt0", Expiry := 4000 * Second }

/-- A world used in the examples, in which every call succeeds: the sheet holds
the rows ("a","1"), ("b","x"); the token endpoint answers with a one-hour
access token "at1"; the clock reads second 1000 and then second 1001 in
`handleSheet`, second 2000 and then second 2001 in `refreshToken`;
`ParseFloat` rejects every string, as Go does for the cells used here. -/
def sampleWorld : World :=
  { ParseFloat := fun _ => none
    readCredentials := .ok "cred"
    ConfigFromJSON := fun _ => .ok { ClientID := "id", ClientSecret := "secret" }
    tokenFile := .ok (.ok sampleToken)
    sheetsNew := .ok ()
    valuesGet := fun _ => .ok [[.str "a", .str "1"], [.str "b", .str "x"]]
    now := 1000 * Second
    nowInstall := 1001 * Second
    postForm := fun _ _ => .ok (.ok "body")
    jsonUnmarshal := fun _ =>
      some [("access_token", .string "at1"), ("expires_in", .number (.finite 3600))]
    nowTick := 2000 * Second
    nowThen := 2001 * Second
    openTokenFile := none
    encodeOk := true
    outOfRangeInt64 := fun _ => 0 }

/-- A cache used in the examples: the sheet "cfg" has the snapshot {a: 1},
fetched at second 100. -/
def sampleCache : Cache :=
  { configData := [("cfg", [("a", Value.int64 1)])]
    lastConfigGetTime := [("cfg", 100 * Second)] }

/-- The example world with the Sheets request failing. -/
def offlineWorld : World :=
  { sampleWorld with valuesGet := fun _ => .error "timeout" }

/-- The example world one second short of `CACHE_INTERVAL` after the snapshot
of `sampleWorld` was installed at second 1001. -/
def laterWorld : World :=
  { sampleWorld with now := 1300 * Second, nowInstall := 1301 * Second }

/-- The number of requests to the token endpoint among the actions of a
run. -/
def refreshRequests (trace : List Effect) : Nat :=
  trace.countP (fun e => match e with
    | .postForm _ _ => true
    | _ => false)

/-- The example world with a token file that cannot be opened for writing. -/
def readOnlyWorld : World :=
  { sampleWorld with openTokenFile := some "permission denied" }

/-- The example world with the token endpoint unreachable. -/
def unreachableWorld : World :=
  { sampleWorld with postForm := fun _ _ => .error "dial tcp: timeout" }

/-- The example world with the token endpoint answering an invalid-grant
error body. -/
def invalidGrantWorld : World :=
  { sampleWorld with jsonUnmarshal := fun _ => some [("error", .string "invalid_grant")] }

/-- The example world at second 1000, when the token still has 3000 seconds
to live. -/
def earlyWorld : World :=
  { sampleWorld with nowTick := 1000 * Second }

/-- The client configuration of `credentials.json`, when the file is read and
parsed (lines 284-293). -/
def World.clientConfig (w : World) : Option OAuthConfig :=
  match w.readCredentials with
  | .error _ => none
  | .ok b =>
    match w.ConfigFromJSON b with
    | .error _ => none
    | .ok config => some config

/-- The example world with the credentials file missing. -/
def noCredentialsWorld : World :=
  { sampleWorld with
    readCredentials := .error "open credentials.json: no such file or directory" }

/-- The example world with the token endpoint granting 3599.5 seconds and the
clock reading second 2000 both at the threshold test and after the response. -/
def halfSecondWorld : World :=
  { sampleWorld with
    jsonUnmarshal := fun _ =>
      some [("access_token", .string "at1"),
        ("expires_in", .number (.finite ⟨7199, 2, by decide, by norm_num⟩))]
    nowThen := 2000 * Second }

/-! ## Coercion -/

theorem parseInt_literals :
    ParseInt "true" = .error .errSyntax ∧ ParseInt "TRUE" = .error .errSyntax ∧
    ParseInt "false" = .error .errSyntax ∧ ParseInt "FALSE" = .error .errSyntax ∧
    ParseInt "null" = .error .errSyntax := by
  decide

theorem coerce_of_parseInt_ok (pf : String → Option Float64) (v : String) (i : Int)
    (h : ParseInt v = .ok i) : coerce pf v = .int64 i := by
  obtain ⟨h1, h2, h3, h4, h5⟩ := parseInt_literals
  unfold coerce
  split_ifs with a b c
  · rcases a with a | a <;> subst a <;> simp_all
  · rcases b with b | b <;> subst b <;> simp_all
  · subst c; simp_all
  · simp [h]

theorem coerce_bool_true_iff (pf : String → Option Float64) (v : String) :
    coerce pf v = .bool true ↔ (v = "true" ∨ v = "TRUE") := by
  unfold coerce
  split_ifs with a b c
  · simp [a]
  · constructor
    · intro h; cases h
    · intro h; exact absurd h a
  · constructor
    · intro h; cases h
    · intro h; exact absurd h a
  · constructor
    · intro h
      split at h
      · cases h
      · split at h <;> cases h
    · intro h; exact absurd h a

/-- The digit loop on a decimal digit, when the accumulator does not
overflow. -/
theorem parseUintStep_digit (n : Nat) (c : Char) (hc : c.isDigit = true)
    (hb : n * 10 + (c.toNat - 48) ≤ maxUint64) :
    parseUintStep n c = .ok (n * 10 + (c.toNat - 48)) := by
  have h48 : 48 ≤ c.toNat ∧ c.toNat ≤ 57 := by
    simp only [Char.isDigit, Bool.and_eq_true, decide_eq_true_eq] at hc
    obtain ⟨h1, h2⟩ := hc
    have h1' : (48 : Nat) ≤ c.val.toNat := h1
    have h2' : c.val.toNat ≤ (57 : Nat) := h2
    exact ⟨h1', h2'⟩
  have hmax : maxUint64 = 18446744073709551615 := by norm_num [maxUint64]
  rw [hmax] at hb
  unfold parseUintStep
  simp only [h48, and_self, if_true]
  have hd : ¬ (c.toNat - 48 ≥ 10) := by omega
  have hn : ¬ (n ≥ maxUint64 / 10 + 1) := by rw [hmax]; omega
  have e1 : (n * 10) % 2 ^ 64 = n * 10 := Nat.mod_eq_of_lt (by omega)
  have e2 : (n * 10 + (c.toNat - 48)) % 2 ^ 64 = n * 10 + (c.toNat - 48) :=
    Nat.mod_eq_of_lt (by omega)
  simp only [hd, hn, if_false, e1, e2]
  have hlast : ¬ (n * 10 + (c.toNat - 48) < n * 10 ∨ n * 10 + (c.toNat - 48) > maxUint64) := by
    rw [hmax]; omega
  simp only [hlast, if_false]

theorem decimalValue_cons (c : Char) (ds : List Char) :
    decimalValue (c :: ds) = (c.toNat - 48) * 10 ^ ds.length + decimalValue ds := by
  unfold decimalValue
  simp [Nat.ofDigits_append, Nat.mul_comm, Nat.add_comm]

theorem foldlM_parseUintStep_digits (ds : List Char) :
    ∀ n : Nat, (∀ c ∈ ds, c.isDigit = true) →
      n * 10 ^ ds.length + decimalValue ds ≤ maxUint64 →
      ds.foldlM parseUintStep n = .ok (n * 10 ^ ds.length + decimalValue ds) := by
  induction ds with
  | nil => intro n _ _; simp [decimalValue, pure, Except.pure]
  | cons c ds ih =>
    intro n hd hb
    have hc : c.isDigit = true := hd c (List.mem_cons_self _ _)
    have hds : ∀ x ∈ ds, x.isDigit = true := fun x hx => hd x (List.mem_cons_of_mem _ hx)
    rw [decimalValue_cons] at hb ⊢
    have hexp : n * 10 ^ (c :: ds).length = n * 10 * 10 ^ ds.length := by
      simp [pow_succ]; ring
    rw [hexp] at hb ⊢
    have hpos : 1 ≤ 10 ^ ds.length := Nat.one_le_pow _ _ (by norm_num)
    have hstep : n * 10 + (c.toNat - 48) ≤ maxUint64 := by
      have : (n * 10 + (c.toNat - 48)) * 1 ≤ (n * 10 + (c.toNat - 48)) * 10 ^ ds.length :=
        Nat.mul_le_mul_left _ hpos
      have e : (n * 10 + (c.toNat - 48)) * 10 ^ ds.length
          = n * 10 * 10 ^ ds.length + (c.toNat - 48) * 10 ^ ds.length := by ring
      omega
    have e : n * 10 * 10 ^ ds.length + ((c.toNat - 48) * 10 ^ ds.length + decimalValue ds)
        = (n * 10 + (c.toNat - 48)) * 10 ^ ds.length + decimalValue ds := by ring
    rw [List.foldlM_cons, parseUintStep_digit n c hc hstep]
    rw [e] at hb ⊢
    exact ih _ hds hb

theorem parseUint_digits (ds : List Char) (hne : ds ≠ [])
    (hd : ∀ c ∈ ds, c.isDigit = true) (hb : decimalValue ds ≤ maxUint64) :
    ParseUint ds = .ok (decimalValue ds) := by
  unfold ParseUint
  rw [if_neg hne]
  have := foldlM_parseUintStep_digits ds 0 hd (by simpa using hb)
  simpa using this

theorem wrapInt64_of_lt (u : Nat) (h : u < 2 ^ 63) : wrapInt64 (u : Int) = (u : Int) := by
  have hu' : (u : Int) < 9223372036854775808 := by exact_mod_cast h
  have hu0 : (0 : Int) ≤ u := Int.ofNat_nonneg u
  simp only [wrapInt64]
  norm_num
  omega

theorem wrapInt64_neg_wrapInt64 (u : Nat) (h : u ≤ 2 ^ 63) :
    wrapInt64 (-(wrapInt64 (u : Int))) = -(u : Int) := by
  have hu' : (u : Int) ≤ 9223372036854775808 := by exact_mod_cast h
  have hu0 : (0 : Int) ≤ u := Int.ofNat_nonneg u
  simp only [wrapInt64]
  norm_num
  omega

theorem parseInt_of_parseUint (c : Char) (rest body : List Char) (u : Nat)
    (hbody : body = if c = '+' then rest else if c = '-' then rest else c :: rest)
    (hu : ParseUint body = .ok u)
    (hr : if c = '-' then u ≤ 2 ^ 63 else u < 2 ^ 63) :
    ParseInt (String.mk (c :: rest)) = .ok (if c = '-' then -(u : Int) else (u : Int)) := by
  unfold ParseInt
  simp only [← hbody, hu]
  by_cases hneg : c = '-'
  · simp only [hneg, if_true] at hr ⊢
    have h1 : ¬ (u > 2 ^ 63) := by omega
    simp only [decide_True, Bool.not_true, Bool.false_and, Bool.true_and, decide_eq_true_eq,
      h1, if_false, if_true, Bool.false_eq_true, wrapInt64_neg_wrapInt64 u hr]
  · simp only [hneg, if_false] at hr ⊢
    have h1 : ¬ (u ≥ 2 ^ 63) := by omega
    simp only [decide_False, Bool.not_false, Bool.true_and, Bool.false_and, decide_eq_true_eq,
      h1, if_false, Bool.false_eq_true, wrapInt64_of_lt u hr]

theorem isDigit_ne_sign (c : Char) (hc : c.isDigit = true) : c ≠ '+' ∧ c ≠ '-' := by
  constructor <;> (intro h; subst h; revert hc; decide)

/-- The result of `ParseInt` on an optional `-` followed by decimal digits in range. -/
theorem parseInt_decimal (neg : Bool) (ds : List Char) (hne : ds ≠ [])
    (hd : ∀ c ∈ ds, c.isDigit = true)
    (hr : if neg then decimalValue ds ≤ 2 ^ 63 else decimalValue ds < 2 ^ 63) :
    ParseInt (String.mk ((if neg then ['-'] else []) ++ ds))
      = .ok (if neg then -(decimalValue ds : Int) else (decimalValue ds : Int)) := by
  have hmax : decimalValue ds ≤ maxUint64 := by
    have : maxUint64 = 18446744073709551615 := by norm_num [maxUint64]
    rw [this]
    split at hr <;> omega
  have hu := parseUint_digits ds hne hd hmax
  cases neg with
  | true =>
    simp only [if_true, List.singleton_append] at hr ⊢
    have := parseInt_of_parseUint '-' ds ds (decimalValue ds) (by simp) hu (by simpa using hr)
    simpa using this
  | false =>
    simp only [Bool.false_eq_true, if_false, List.nil_append] at hr ⊢
    obtain ⟨c, rest, rfl⟩ := List.exists_cons_of_ne_nil hne
    obtain ⟨hp, hm⟩ := isDigit_ne_sign c (hd c (List.mem_cons_self _ _))
    have := parseInt_of_parseUint c rest (c :: rest) (decimalValue (c :: rest))
      (by simp [hp, hm]) hu (by simpa [hm] using hr)
    simpa [hm] using this

/-! ## Snapshots -/

theorem lookup_filter_ne {α : Type} (m : List (String × α)) (k k' : String) (h : k' ≠ k) :
    List.lookup k' (m.filter (fun p => p.1 != k)) = List.lookup k' m := by
  induction m with
  | nil => rfl
  | cons p m ih =>
    rcases p with ⟨a, b⟩
    by_cases ha : a = k
    · have hk : (k' == a) = false := by simpa [ha] using h
      have hf : ((a, b).1 != k) = false := by simp [ha]
      rw [List.filter_cons_of_neg (by simp [ha]), ih, List.lookup_cons, hk]
    · rw [List.filter_cons_of_pos (by simpa using ha), List.lookup_cons, List.lookup_cons, ih]

theorem GoMap.get?_set {α : Type} (m : GoMap α) (k k' : String) (v : α) :
    (m.set k v).get? k' = if k' = k then some v else m.get? k' := by
  unfold GoMap.set GoMap.get?
  by_cases h : k' = k
  · subst h; simp
  · have hb : (k' == k) = false := by simpa using h
    rw [if_neg h, List.lookup_cons, hb]
    exact lookup_filter_ne m k k' h

/-- What one row does to the lookup of `k`. -/
theorem storeRow_get? (pf : String → Option Float64) (m snap : Snapshot) (row : List Cell)
    (k : String) (h : storeRow pf m row = some snap) :
    snap.get? k = if rowKey row = some k then some (coerce pf (rowValue row)) else m.get? k := by
  match row, h with
  | [], h =>
    simp only [storeRow, Option.some.injEq] at h
    subst h; simp [rowKey]
  | [.str key], h =>
    simp only [storeRow, Option.some.injEq] at h
    subst h
    rw [GoMap.get?_set]
    by_cases hk : k = key <;> simp [rowKey, rowValue, hk, eq_comm]
  | .str key :: .str value :: rest, h =>
    simp only [storeRow, Option.some.injEq] at h
    subst h
    rw [GoMap.get?_set]
    by_cases hk : k = key <;> simp [rowKey, rowValue, hk, eq_comm]
  | .str key :: .other :: rest, h => simp [storeRow] at h
  | .other :: rest, h => simp [storeRow] at h

theorem buildSnapshot_concat (pf : String → Option Float64) (init : List (List Cell))
    (row : List Cell) :
    buildSnapshot pf (init ++ [row]) = (buildSnapshot pf init).bind (fun m => storeRow pf m row) := by
  simp only [buildSnapshot, List.foldlM_append, List.foldlM_cons, List.foldlM_nil]
  cases List.foldlM (storeRow pf) ([] : Snapshot) init with
  | none => rfl
  | some m =>
    show (storeRow pf m row >>= pure) = storeRow pf m row
    cases storeRow pf m row <;> rfl

/-- The lookup of every key in the snapshot built from `rows`. -/
theorem buildSnapshot_get? (pf : String → Option Float64) (rows : List (List Cell)) :
    ∀ snap, buildSnapshot pf rows = some snap →
      ∀ k, snap.get? k = (lastRowWithKey k rows).map (fun row => coerce pf (rowValue row)) := by
  induction rows using List.reverseRecOn with
  | nil =>
    intro snap h k
    simp only [buildSnapshot, List.foldlM_nil, pure, Option.some.injEq] at h
    subst h
    simp [lastRowWithKey, GoMap.get?]
  | append_singleton init row ih =>
    intro snap h k
    rw [buildSnapshot_concat] at h
    cases hinit : buildSnapshot pf init with
    | none => rw [hinit] at h; simp at h
    | some m =>
      rw [hinit] at h
      have hrow : storeRow pf m row = some snap := by simpa using h
      rw [storeRow_get? pf m snap row k hrow, ih m hinit k]
      unfold lastRowWithKey
      by_cases hk : rowKey row = some k
      · simp [List.filter_append, List.filter_cons, hk]
      · simp [List.filter_append, List.filter_cons, hk]

/-- Rows whose first two cells are strings never make the loop panic. -/
theorem buildSnapshot_isSome (pf : String → Option Float64) (rows : List (List Cell))
    (h : ∀ row ∈ rows, ∀ c ∈ row.take 2, c ≠ Cell.other) :
    ∃ snap, buildSnapshot pf rows = some snap := by
  induction rows using List.reverseRecOn with
  | nil => exact ⟨[], rfl⟩
  | append_singleton init row ih =>
    obtain ⟨m, hm⟩ := ih (fun r hr => h r (List.mem_append_left _ hr))
    have hrow := h row (by simp)
    rw [buildSnapshot_concat, hm]
    match row, hrow with
    | [], _ => exact ⟨m, rfl⟩
    | [.str key], _ => exact ⟨_, rfl⟩
    | .str key :: .str value :: rest, _ => exact ⟨_, rfl⟩
    | .str key :: .other :: rest, hrow => exact absurd rfl (hrow Cell.other (by simp))
    | .other :: rest, hrow => exact absurd rfl (hrow Cell.other (by simp))

theorem lastRowWithKey_isSome_iff (k : String) (rows : List (List Cell)) :
    lastRowWithKey k rows ≠ none ↔ ∃ row ∈ rows, rowKey row = some k := by
  unfold lastRowWithKey
  rw [Ne, List.getLast?_eq_none_iff, List.filter_eq_nil_iff]
  simp

theorem buildSnapshot_skip_empty_row (pf : String → Option Float64)
    (rows₁ rows₂ : List (List Cell)) :
    buildSnapshot pf (rows₁ ++ [] :: rows₂) = buildSnapshot pf (rows₁ ++ rows₂) := by
  simp only [buildSnapshot, List.foldlM_append, List.foldlM_cons]
  cases List.foldlM (storeRow pf) ([] : Snapshot) rows₁ with
  | none => rfl
  | some m => rfl

/-! ## Claims about coercion and snapshots -/

/-- C2, counterexample: "True" equals "true" ignoring letter case, yet the
value stored for it is never Bool(true); it is the string "True" whenever
`ParseFloat` rejects it. -/
theorem coerce_True_not_bool :
    equalsIgnoringCase "True" "true" ∧
    (∀ pf : String → Option Float64, coerce pf "True" ≠ Value.bool true) ∧
    (∀ pf : String → Option Float64, pf "True" = none → coerce pf "True" = Value.str "True") := by
  have hp : ParseInt "True" = .error .errSyntax := by decide
  refine ⟨by decide, ?_, ?_⟩
  · intro pf h
    rw [coerce_bool_true_iff] at h
    revert h
    decide
  · intro pf h
    simp [coerce, hp, h]

/-- C2, amended: the stored value is Bool(true) exactly for the raw values
"true" and "TRUE", and Bool(false) exactly for "false" and "FALSE". -/
theorem coerce_bool_iff (pf : String → Option Float64) (v : String) :
    (coerce pf v = Value.bool true ↔ (v = "true" ∨ v = "TRUE")) ∧
    (coerce pf v = Value.bool false ↔ (v = "false" ∨ v = "FALSE")) := by
  refine ⟨coerce_bool_true_iff pf v, ?_⟩
  unfold coerce
  split_ifs with a b c
  · constructor
    · intro h; cases h
    · intro h
      rcases a with a | a <;> rcases h with h | h <;> rw [a] at h <;> revert h <;> decide
  · simp [b]
  · constructor
    · intro h; cases h
    · intro h; exact absurd h b
  · constructor
    · intro h
      split at h
      · cases h
      · split at h <;> cases h
    · intro h; exact absurd h b

/-- C4: a raw value made of an optional leading `-` and one or more decimal
digits whose number fits in a signed 64-bit integer is stored as Int64 with
exactly that number. -/
theorem coerce_decimal_int64 (pf : String → Option Float64) (neg : Bool) (ds : List Char)
    (hne : ds ≠ []) (hd : ∀ c ∈ ds, c.isDigit = true)
    (hr : if neg then decimalValue ds ≤ 2 ^ 63 else decimalValue ds < 2 ^ 63) :
    coerce pf (String.mk ((if neg then ['-'] else []) ++ ds))
      = Value.int64 (if neg then -(decimalValue ds : Int) else (decimalValue ds : Int)) :=
  coerce_of_parseInt_ok pf _ _ (parseInt_decimal neg ds hne hd hr)

/-- C4 at "-42" and "1": they are stored as Int64(-42) and Int64(1). -/
theorem coerce_decimal_int64_witness :
    (∀ pf : String → Option Float64, coerce pf "-42" = Value.int64 (-42)) ∧
    (∀ pf : String → Option Float64, coerce pf "1" = Value.int64 1) := by
  have h42 : decimalValue ['4', '2'] = 42 := by decide
  have h1 : decimalValue ['1'] = 1 := by decide
  constructor
  · intro pf
    have h := coerce_decimal_int64 pf true ['4', '2'] (by decide) (by decide) (by decide)
    rw [h42] at h
    exact h
  · intro pf
    have h := coerce_decimal_int64 pf false ['1'] (by decide) (by decide) (by decide)
    rw [h1] at h
    exact h

/-- C5: the stored value is Null if and only if the raw value is exactly
"null"; a row without a second column is coerced from the empty string; "Null"
and the empty string are stored as strings whenever `ParseFloat` rejects them
(as it does in Go). -/
theorem coerce_null_iff (pf : String → Option Float64) :
    (∀ v, coerce pf v = Value.null ↔ v = "null") ∧
    (∀ (m : Snapshot) (key : String),
      storeRow pf m [Cell.str key] = some (m.set key (coerce pf ""))) ∧
    coerce pf "Null" ≠ Value.null ∧ coerce pf "" ≠ Value.null ∧
    (pf "Null" = none → coerce pf "Null" = Value.str "Null") ∧
    (pf "" = none → coerce pf "" = Value.str "") := by
  have hiff : ∀ v, coerce pf v = Value.null ↔ v = "null" := by
    intro v
    unfold coerce
    split_ifs with a b c
    · constructor
      · intro h; cases h
      · intro h; rcases a with a | a <;> rw [a] at h <;> revert h <;> decide
    · constructor
      · intro h; cases h
      · intro h; rcases b with b | b <;> rw [b] at h <;> revert h <;> decide
    · simp [c]
    · constructor
      · intro h
        split at h
        · cases h
        · split at h <;> cases h
      · intro h; exact absurd h c
  have hN : ParseInt "Null" = .error .errSyntax := by decide
  have hE : ParseInt "" = .error .errSyntax := by decide
  refine ⟨hiff, fun m key => rfl, ?_, ?_, ?_, ?_⟩
  · rw [Ne, hiff]; decide
  · rw [Ne, hiff]; decide
  · intro h; simp [coerce, hN, h]
  · intro h; simp [coerce, hE, h]

/-- C5 for a `ParseFloat` that rejects "Null" and the empty string. -/
theorem coerce_null_iff_witness :
    coerce (fun _ => none) "Null" = Value.str "Null" ∧
    coerce (fun _ => none) "" = Value.str "" :=
  ⟨(coerce_null_iff (fun _ => none)).2.2.2.2.1 rfl, (coerce_null_iff (fun _ => none)).2.2.2.2.2 rfl⟩

/-- C3, counterexample: the single fetched row ("", "1") builds a snapshot
whose only entry has the empty string as its key. -/
theorem buildSnapshot_keeps_empty_key :
    ∃ snap : Snapshot,
      (∀ pf : String → Option Float64,
        buildSnapshot pf [[Cell.str "", Cell.str "1"]] = some snap) ∧
      snap = [("", Value.int64 1)] ∧ snap.get? "" = some (Value.int64 1) := by
  refine ⟨[("", Value.int64 1)], ?_, rfl, by decide⟩
  intro pf
  have h : coerce pf "1" = Value.int64 1 := coerce_of_parseInt_ok pf "1" 1 (by decide)
  simp [buildSnapshot, storeRow, h, GoMap.set, pure]

/-- C3, amended: a row with zero cells contributes nothing to the snapshot; a
row whose first cell is the empty string is stored under the key "" like any
other row, so the snapshot has an entry with the empty key exactly when some
fetched row has an empty first cell. -/
theorem buildSnapshot_empty_key (pf : String → Option Float64) :
    (∀ rows₁ rows₂, buildSnapshot pf (rows₁ ++ [] :: rows₂) = buildSnapshot pf (rows₁ ++ rows₂)) ∧
    (∀ (m : Snapshot) (v : String) (rest : List Cell),
      storeRow pf m (Cell.str "" :: Cell.str v :: rest) = some (m.set "" (coerce pf v))) ∧
    (∀ rows snap, buildSnapshot pf rows = some snap →
      (snap.get? "" ≠ none ↔ ∃ row ∈ rows, rowKey row = some "")) := by
  refine ⟨buildSnapshot_skip_empty_row pf, fun m v rest => rfl, ?_⟩
  intro rows snap h
  rw [buildSnapshot_get? pf rows snap h "", ← lastRowWithKey_isSome_iff]
  cases lastRowWithKey "" rows <;> simp

/-- C3, amended, at the rows [("", "1"), ()]. -/
theorem buildSnapshot_empty_key_witness :
    GoMap.get? [("", Value.int64 1)] "" ≠ none ↔
      ∃ row ∈ [[Cell.str "", Cell.str "1"], []], rowKey row = some "" :=
  (buildSnapshot_empty_key (fun _ => none)).2.2 [[Cell.str "", Cell.str "1"], []]
    [("", Value.int64 1)] (by decide)

/-- C6: in the snapshot built from the fetched rows, the value stored for a key
is the coercion of the value cell of the last row with that key (and a key no
row has is absent); the loop builds a snapshot whenever the first two cells
of every row are strings; rows [("a","1"),("a","2")] give {a: Int64(2)}. -/
theorem buildSnapshot_last_wins (pf : String → Option Float64) (rows : List (List Cell)) :
    (∀ snap, buildSnapshot pf rows = some snap →
      ∀ k, snap.get? k = (lastRowWithKey k rows).map (fun row => coerce pf (rowValue row))) ∧
    ((∀ row ∈ rows, ∀ c ∈ row.take 2, c ≠ Cell.other) →
      ∃ snap, buildSnapshot pf rows = some snap) ∧
    buildSnapshot pf [[Cell.str "a", Cell.str "1"], [Cell.str "a", Cell.str "2"]]
      = some [("a", Value.int64 2)] := by
  refine ⟨buildSnapshot_get? pf rows, buildSnapshot_isSome pf rows, ?_⟩
  have h1 : coerce pf "1" = Value.int64 1 := coerce_of_parseInt_ok pf "1" 1 (by decide)
  have h2 : coerce pf "2" = Value.int64 2 := coerce_of_parseInt_ok pf "2" 2 (by decide)
  simp [buildSnapshot, storeRow, h1, h2, GoMap.set, pure]

/-- C6 at the rows [("a","1"),("b","x"),("a","2")]: the lookup of "a" is
Int64(2). -/
theorem buildSnapshot_last_wins_witness :
    GoMap.get? [("a", Value.int64 2), ("b", Value.str "x")] "a" = some (Value.int64 2) := by
  have h := (buildSnapshot_last_wins (fun _ => none)
    [[Cell.str "a", Cell.str "1"], [Cell.str "b", Cell.str "x"], [Cell.str "a", Cell.str "2"]]).1
    [("a", Value.int64 2), ("b", Value.str "x")] (by decide) "a"
  rw [h]
  decide

/-! ## The cache gate -/

theorem cacheIsExpired_iff (c : Cache) (sheet : String) (now : Time) :
    cacheIsExpired c sheet now = true ↔ isStale c sheet now := by
  unfold cacheIsExpired isStale
  cases h : c.lastConfigGetTime.get? sheet with
  | none => simp
  | some t =>
    simp only [Option.isSome_some, Bool.not_true, Bool.false_or, Option.getD_some,
      decide_eq_true_eq, Time.Sub, CACHE_INTERVAL, Second, maxInt64, minInt64]
    norm_num
    have key : ∀ d : Int, (300000000000 ≤
        (if 9223372036854775807 < d then 9223372036854775807
         else if d < -9223372036854775808 then -9223372036854775808 else d)) ↔
        300000000000 ≤ d := by
      intro d
      split_ifs <;> omega
    exact key (now - t)

theorem handleSheet_cached (w : World) (c : Cache) (sheet : String) (query : Values)
    (h : cacheIsExpired c sheet w.now = false) :
    handleSheet true w c sheet query = ⟨answer (c.configData.get? sheet) query, c, []⟩ := by
  simp [handleSheet, h]

theorem handleSheet_setup_failed (b : Bool) (w : World) (c : Cache) (sheet : String)
    (query : Values) (hgate : b = false ∨ cacheIsExpired c sheet w.now = true)
    (h : w.setupOk = false) :
    ∃ msg trace, handleSheet b w c sheet query = ⟨some (400, .value (.str msg)), c, trace⟩ ∧
      remoteFetches trace = 0 ∧ trace ≠ [] := by
  have hg : (!b || (if b = true then cacheIsExpired c sheet w.now else false)) = true := by
    rcases hgate with hb | he
    · simp [hb]
    · cases b <;> simp [he]
  unfold World.setupOk at h
  unfold handleSheet
  simp only [hg, if_true]
  cases h1 : w.readCredentials with
  | error e => exact ⟨_, _, rfl, by decide, by simp⟩
  | ok bts =>
    rw [h1] at h
    dsimp only
    cases h2 : w.ConfigFromJSON bts with
    | error e => exact ⟨_, _, rfl, by decide, by simp⟩
    | ok cfg =>
      simp only [h2] at h
      dsimp only
      cases h3 : tokenFromFile w with
      | error e => exact ⟨_, _, rfl, by decide, by simp⟩
      | ok tok =>
        simp only [h3] at h
        dsimp only
        cases h4 : w.sheetsNew with
        | error e => exact ⟨_, _, rfl, by decide, by simp⟩
        | ok u => simp [h4] at h

theorem handleSheet_setup_ok (b : Bool) (w : World) (c : Cache) (sheet : String)
    (query : Values) (hgate : b = false ∨ cacheIsExpired c sheet w.now = true)
    (h : w.setupOk = true) :
    handleSheet b w c sheet query =
      match w.valuesGet (sheet ++ "!A:B") with
      | .error err =>
        ⟨some (400, .value (.str ("Unable to retrieve data from sheet: " ++ err))), c,
          fetchTrace sheet⟩
      | .ok rows =>
        match buildSnapshot w.ParseFloat rows with
        | none => ⟨none, c, fetchTrace sheet⟩
        | some snap =>
          ⟨answer (some snap) query, installed b c sheet snap w.nowInstall, fetchTrace sheet⟩ := by
  have hg : (!b || (if b = true then cacheIsExpired c sheet w.now else false)) = true := by
    rcases hgate with hb | he
    · simp [hb]
    · cases b <;> simp [he]
  unfold World.setupOk at h
  unfold handleSheet
  simp only [hg, if_true]
  cases h1 : w.readCredentials with
  | error e => simp [h1] at h
  | ok bts =>
    rw [h1] at h
    dsimp only
    cases h2 : w.ConfigFromJSON bts with
    | error e => simp [h2] at h
    | ok cfg =>
      simp only [h2] at h
      dsimp only
      cases h3 : tokenFromFile w with
      | error e => simp [h3] at h
      | ok tok =>
        simp only [h3] at h
        dsimp only
        cases h4 : w.sheetsNew with
        | error e => simp [h4] at h
        | ok u => rfl

theorem remoteFetches_fetchTrace (sheet : String) : remoteFetches (fetchTrace sheet) = 1 := by
  simp [remoteFetches, fetchTrace, List.countP_cons]

theorem answer_nil (m : Option Snapshot) : answer m [] = some (200, .sheet m) := by
  simp [answer]

/-- Every call makes at most one Sheets request, and one only when the gate
is open. -/
theorem handleSheet_trace (b : Bool) (w : World) (c : Cache) (sheet : String) (query : Values) :
    ((handleSheet b w c sheet query).trace = [] ∧ b = true ∧ cacheIsExpired c sheet w.now = false) ∨
    ((b = false ∨ cacheIsExpired c sheet w.now = true) ∧
      ((w.setupOk = false ∧ remoteFetches (handleSheet b w c sheet query).trace = 0 ∧
          (handleSheet b w c sheet query).trace ≠ [] ∧
          ∃ msg, (handleSheet b w c sheet query).ret = some (400, .value (.str msg))) ∨
       (w.setupOk = true ∧ (handleSheet b w c sheet query).trace = fetchTrace sheet))) := by
  by_cases hgate : b = false ∨ cacheIsExpired c sheet w.now = true
  · right
    refine ⟨hgate, ?_⟩
    cases hs : w.setupOk with
    | false =>
      left
      obtain ⟨msg, trace, h, h0, hne⟩ := handleSheet_setup_failed b w c sheet query hgate hs
      rw [h]
      exact ⟨rfl, h0, hne, msg, rfl⟩
    | true =>
      right
      refine ⟨rfl, ?_⟩
      rw [handleSheet_setup_ok b w c sheet query hgate hs]
      cases w.valuesGet (sheet ++ "!A:B") with
      | error e => rfl
      | ok rows =>
        dsimp only
        cases buildSnapshot w.ParseFloat rows <;> rfl
  · left
    have hb : b = true := by
      cases b
      · exact absurd (Or.inl rfl) hgate
      · rfl
    have he : cacheIsExpired c sheet w.now = false := by
      cases h : cacheIsExpired c sheet w.now
      · rfl
      · exact absurd (Or.inr h) hgate
    subst hb
    rw [handleSheet_cached w c sheet query he]
    exact ⟨rfl, rfl, he⟩

/-- A call that answers 200 through an open gate fetched the rows, built a
snapshot and, with caching on, installed it. -/
theorem handleSheet_get_ok (b : Bool) (w : World) (c : Cache) (sheet : String) (d : Data)
    (hgate : b = false ∨ cacheIsExpired c sheet w.now = true)
    (h : (handleSheet b w c sheet []).ret = some (200, d)) :
    ∃ snap, ∀ query, handleSheet b w c sheet query
      = ⟨answer (some snap) query, installed b c sheet snap w.nowInstall, fetchTrace sheet⟩ := by
  cases hs : w.setupOk with
  | false =>
    obtain ⟨msg, trace, h1, -, -⟩ := handleSheet_setup_failed b w c sheet [] hgate hs
    rw [h1] at h
    simp at h
  | true =>
    rw [handleSheet_setup_ok b w c sheet [] hgate hs] at h
    cases hv : w.valuesGet (sheet ++ "!A:B") with
    | error e => rw [hv] at h; simp at h
    | ok rows =>
      rw [hv] at h
      dsimp only at h
      cases hb : buildSnapshot w.ParseFloat rows with
      | none => rw [hb] at h; simp at h
      | some snap =>
        refine ⟨snap, fun query => ?_⟩
        rw [handleSheet_setup_ok b w c sheet query hgate hs, hv]
        simp only [hb]

/-! ## Claims about `handleSheet` -/

/-- C1, counterexample: with caching on, the sheet "cfg" has the snapshot
{a: 1} installed at second 100 and is stale at second 1000; the Sheets request
fails, and the call answers 400 with the error message, not 200 with the
snapshot. -/
theorem handleSheet_stale_fetch_fails :
    sampleCache.configData.get? "cfg" = some [("a", Value.int64 1)] ∧
    isStale sampleCache "cfg" offlineWorld.now ∧
    offlineWorld.valuesGet "cfg!A:B" = .error "timeout" ∧
    (handleSheet true offlineWorld sampleCache "cfg" []).ret
      = some (400, .value (.str "Unable to retrieve data from sheet: timeout")) ∧
    (handleSheet true offlineWorld sampleCache "cfg" []).ret
      ≠ some (200, .sheet (some [("a", Value.int64 1)])) := by
  decide

/-- C1, amended: when the gate is open (caching off, or the entry stale), the
steps before the Sheets request succeed and the request fails with error
`err`, the call answers status 400 with the message "Unable to retrieve data
from sheet: err", whatever the query, and leaves the cache, so the
previously installed snapshot, unchanged. -/
theorem handleSheet_fetch_error (b : Bool) (w : World) (c : Cache) (sheet : String)
    (query : Values) (err : String)
    (hgate : b = false ∨ isStale c sheet w.now)
    (hsetup : w.setupOk = true)
    (hget : w.valuesGet (sheet ++ "!A:B") = .error err) :
    (handleSheet b w c sheet query).ret
      = some (400, .value (.str ("Unable to retrieve data from sheet: " ++ err))) ∧
    (handleSheet b w c sheet query).cache = c ∧
    (handleSheet b w c sheet query).cache.configData.get? sheet = c.configData.get? sheet := by
  have hg : b = false ∨ cacheIsExpired c sheet w.now = true :=
    hgate.imp id (cacheIsExpired_iff c sheet w.now).2
  rw [handleSheet_setup_ok b w c sheet query hg hsetup, hget]
  exact ⟨rfl, rfl, rfl⟩

/-- C1, amended, at the stale example cache with the Sheets request failing. -/
theorem handleSheet_fetch_error_witness :
    (handleSheet true offlineWorld sampleCache "cfg" []).ret
      = some (400, .value (.str ("Unable to retrieve data from sheet: " ++ "timeout"))) ∧
    (handleSheet true offlineWorld sampleCache "cfg" []).cache = sampleCache ∧
    (handleSheet true offlineWorld sampleCache "cfg" []).cache.configData.get? "cfg"
      = sampleCache.configData.get? "cfg" :=
  handleSheet_fetch_error true offlineWorld sampleCache "cfg" [] "timeout"
    (Or.inr (by decide)) (by decide) (by decide)

/-- C7, counterexample: with caching on, the sheet "cfg" is stale (fetched at
second 100, the clock reads second 1000) and the credentials file cannot be
read: the call returns 400 at line 179 and makes no Sheets request. -/
theorem handleSheet_stale_without_fetch :
    isStale sampleCache "cfg" noCredentialsWorld.now ∧
    remoteFetches (handleSheet true noCredentialsWorld sampleCache "cfg" []).trace = 0 ∧
    (handleSheet true noCredentialsWorld sampleCache "cfg" []).trace
      = [.readFile "credentials.json"] ∧
    (handleSheet true noCredentialsWorld sampleCache "cfg" []).ret
      = some (400, .value (.str
          "Unable to read client secret file: open credentials.json: no such file or directory")) := by
  decide

/-- C7, amended: with caching on, a call makes at most one Sheets request; it
makes one only if the sheet is stale (no recorded last-fetch time, or
`now - lastFetchTime >= CACHE_INTERVAL`); it performs no action at all
exactly when the sheet is fresh; when the credentials file, the token file and
the Sheets client are available it makes a request, for the range `A:B` of
the sheet, exactly when the sheet is stale; when one of them is not, a stale
call answers 400 without a request and leaves the cache as it was. After a
call that found the sheet stale, answered 200 and read the clock of line 234
no earlier than `t`, a second call whose clock reads less than
`t + CACHE_INTERVAL` makes no request and returns the snapshot the first
call installed: the two calls make exactly one request. -/
theorem handleSheet_fetch_iff_stale (w : World) (c : Cache) (sheet : String) (query : Values) :
    remoteFetches (handleSheet true w c sheet query).trace ≤ 1 ∧
    (remoteFetches (handleSheet true w c sheet query).trace = 1 → isStale c sheet w.now) ∧
    ((handleSheet true w c sheet query).trace = [] ↔ ¬ isStale c sheet w.now) ∧
    (w.setupOk = true →
      (remoteFetches (handleSheet true w c sheet query).trace = 1 ↔ isStale c sheet w.now)) ∧
    (w.setupOk = true → isStale c sheet w.now →
      (handleSheet true w c sheet query).trace
        = [.readFile "credentials.json", .readFile "token.json",
           .sheetsGet "PUT-YOUR-SPREADSHEET-ID-HERE" (sheet ++ "!A:B")]) ∧
    (w.setupOk = false → isStale c sheet w.now →
      remoteFetches (handleSheet true w c sheet query).trace = 0 ∧
      (∃ msg, (handleSheet true w c sheet query).ret = some (400, .value (.str msg))) ∧
      (handleSheet true w c sheet query).cache = c) ∧
    (∀ (w2 : World) (t : Int) (d : Data),
      isStale c sheet w.now →
      (handleSheet true w c sheet []).ret = some (200, d) →
      t ≤ w.nowInstall → w2.now - t < CACHE_INTERVAL →
      ∃ snap : Snapshot,
        d = .sheet (some snap) ∧
        (handleSheet true w c sheet []).cache.configData.get? sheet = some snap ∧
        handleSheet true w2 (handleSheet true w c sheet []).cache sheet []
          = ⟨some (200, d), (handleSheet true w c sheet []).cache, []⟩ ∧
        remoteFetches (handleSheet true w c sheet []).trace
          + remoteFetches (handleSheet true w2 (handleSheet true w c sheet []).cache sheet []).trace
          = 1) := by
  have hexp := cacheIsExpired_iff c sheet w.now
  refine ⟨?_, ?_, ?_, ?_, ?_, ?_, ?_⟩
  · rcases handleSheet_trace true w c sheet query with ⟨h, -, -⟩ | ⟨-, ⟨-, h, -, -⟩ | ⟨-, h⟩⟩
    · rw [h]; decide
    · rw [h]; decide
    · rw [h, remoteFetches_fetchTrace]
  · intro h1
    rcases handleSheet_trace true w c sheet query with ⟨h, -, -⟩ | ⟨hg, -⟩
    · rw [h] at h1; exact absurd h1 (by decide)
    · rcases hg with hg | hg
      · exact absurd hg (by decide)
      · exact hexp.1 hg
  · constructor
    · intro h0 hst
      rcases handleSheet_trace true w c sheet query with ⟨-, -, h⟩ | ⟨-, ⟨-, -, h, -⟩ | ⟨-, h⟩⟩
      · rw [hexp.2 hst] at h; exact absurd h (by decide)
      · exact h h0
      · rw [h0] at h; exact absurd h (by simp [fetchTrace])
    · intro hns
      rcases handleSheet_trace true w c sheet query with ⟨h, -, -⟩ | ⟨hg, -⟩
      · exact h
      · rcases hg with hg | hg
        · exact absurd hg (by decide)
        · exact absurd (hexp.1 hg) hns
  · intro hs
    constructor
    · intro h1
      rcases handleSheet_trace true w c sheet query with ⟨h, -, -⟩ | ⟨hg, -⟩
      · rw [h] at h1; exact absurd h1 (by decide)
      · rcases hg with hg | hg
        · exact absurd hg (by decide)
        · exact hexp.1 hg
    · intro hst
      rcases handleSheet_trace true w c sheet query with ⟨-, -, h⟩ | ⟨-, ⟨h, -⟩ | ⟨-, h⟩⟩
      · rw [hexp.2 hst] at h; exact absurd h (by decide)
      · rw [hs] at h; exact absurd h (by decide)
      · rw [h, remoteFetches_fetchTrace]
  · intro hs hst
    rcases handleSheet_trace true w c sheet query with ⟨-, -, h⟩ | ⟨-, ⟨h, -⟩ | ⟨-, h⟩⟩
    · rw [hexp.2 hst] at h; exact absurd h (by decide)
    · rw [hs] at h; exact absurd h (by decide)
    · rw [h]; rfl
  · intro hs hst
    obtain ⟨msg, trace, h, h0, -⟩ :=
      handleSheet_setup_failed true w c sheet query (Or.inr (hexp.2 hst)) hs
    rw [h]
    exact ⟨h0, ⟨msg, rfl⟩, rfl⟩
  · intro w2 t d hst hret ht hlt
    have hg : true = false ∨ cacheIsExpired c sheet w.now = true := Or.inr (hexp.2 hst)
    obtain ⟨snap, hall⟩ := handleSheet_get_ok true w c sheet d hg hret
    have h1 := hall []
    rw [h1, answer_nil] at hret
    have hd : d = .sheet (some snap) := by
      simp only [Option.some.injEq, Prod.mk.injEq, true_and] at hret
      exact hret.symm
    have hget : (installed true c sheet snap w.nowInstall).configData.get? sheet = some snap := by
      simp [installed, GoMap.get?_set]
    have hfresh : cacheIsExpired (installed true c sheet snap w.nowInstall) sheet w2.now = false := by
      cases hc : cacheIsExpired (installed true c sheet snap w.nowInstall) sheet w2.now with
      | false => rfl
      | true =>
        have hs := (cacheIsExpired_iff _ _ _).1 hc
        have hl : (installed true c sheet snap w.nowInstall).lastConfigGetTime.get? sheet
            = some w.nowInstall := by
          simp [installed, GoMap.get?_set]
        unfold isStale at hs
        rw [hl] at hs
        have h300 : CACHE_INTERVAL = 300000000000 := by norm_num [CACHE_INTERVAL, Second]
        rw [h300] at hs hlt
        have key : ∀ a b x : Int, a - b ≥ 300000000000 → x ≤ b → a - x < 300000000000 → False := by
          intro a b x h1 h2 h3; omega
        exact (key _ _ _ hs ht hlt).elim
    refine ⟨snap, hd, ?_, ?_, ?_⟩
    · rw [h1]; exact hget
    · rw [h1, handleSheet_cached w2 _ sheet [] hfresh, hget, answer_nil, hd]
    · rw [h1, handleSheet_cached w2 _ sheet [] hfresh, remoteFetches_fetchTrace]
      rfl

/-- With the constant the source compiles with, `CACHE_DATA = false`, every
call takes the refresh path and no call changes the cache. -/
theorem handleSheet_compiled (w : World) (c : Cache) (sheet : String) (query : Values) :
    (handleSheet CACHE_DATA w c sheet query).trace ≠ [] ∧
    (handleSheet CACHE_DATA w c sheet query).cache = c := by
  rcases handleSheet_trace CACHE_DATA w c sheet query with ⟨-, h, -⟩ | ⟨hg, ⟨hs, -, h, -⟩ | ⟨hs, h⟩⟩
  · exact absurd h (by decide)
  · obtain ⟨msg, trace, he, -, -⟩ := handleSheet_setup_failed CACHE_DATA w c sheet query hg hs
    exact ⟨h, by rw [he]⟩
  · refine ⟨by rw [h]; simp [fetchTrace], ?_⟩
    rw [handleSheet_setup_ok CACHE_DATA w c sheet query hg hs]
    cases w.valuesGet (sheet ++ "!A:B") with
    | error e => rfl
    | ok rows =>
      dsimp only
      cases buildSnapshot w.ParseFloat rows <;> rfl

/-- C7, amended, at the example: the first call, at second 1000 on an empty cache,
fetches and installs at second 1001; the second, at second 1300, is served
from the cache. -/
theorem handleSheet_fetch_iff_stale_witness :
    ∃ snap : Snapshot,
      Data.sheet (some [("b", Value.str "x"), ("a", Value.int64 1)]) = .sheet (some snap) ∧
      (handleSheet true sampleWorld ⟨[], []⟩ "cfg" []).cache.configData.get? "cfg" = some snap ∧
      handleSheet true laterWorld (handleSheet true sampleWorld ⟨[], []⟩ "cfg" []).cache "cfg" []
        = ⟨some (200, .sheet (some [("b", Value.str "x"), ("a", Value.int64 1)])),
            (handleSheet true sampleWorld ⟨[], []⟩ "cfg" []).cache, []⟩ ∧
      remoteFetches (handleSheet true sampleWorld ⟨[], []⟩ "cfg" []).trace
        + remoteFetches
            (handleSheet true laterWorld (handleSheet true sampleWorld ⟨[], []⟩ "cfg" []).cache
              "cfg" []).trace
        = 1 :=
  (handleSheet_fetch_iff_stale sampleWorld ⟨[], []⟩ "cfg" []).2.2.2.2.2.2 laterWorld (1001 * Second)
    (.sheet (some [("b", Value.str "x"), ("a", Value.int64 1)]))
    (by decide) (by decide) (by decide) (by decide)

/-- C10: when the full-snapshot call answers 200 with the map `S`, the call
with a `key` query for `k` performs the same actions and leaves the same
cache, and answers 200 with `S[k]` when `k` is a key of `S` (also when the
value is nil) and 404 with the message "Error: key k is not in sheet."
when it is not. -/
theorem handleSheet_key_lookup (b : Bool) (w : World) (c : Cache) (sheet : String)
    (S : Option Snapshot) (query : Values) (k : String) (more : List String)
    (hget : (handleSheet b w c sheet []).ret = some (200, .sheet S))
    (hq : query.get? "key" = some (k :: more)) :
    (handleSheet b w c sheet query).ret =
      (match S.bind (fun m => m.get? k) with
       | some v => some (200, .value v)
       | none => some (404, .value (.str ("Error: key " ++ k ++ " is not in sheet.")))) ∧
    (handleSheet b w c sheet query).cache = (handleSheet b w c sheet []).cache ∧
    (handleSheet b w c sheet query).trace = (handleSheet b w c sheet []).trace := by
  have hne : ¬ (query.length = 0) := by
    intro h0
    have : query = [] := List.length_eq_zero.1 h0
    rw [this] at hq
    simp [GoMap.get?] at hq
  have hans : ∀ m : Option Snapshot, answer m query =
      (match m.bind (fun m => m.get? k) with
       | some v => some (200, .value v)
       | none => some (404, .value (.str ("Error: key " ++ k ++ " is not in sheet.")))) := by
    intro m
    unfold answer
    rw [if_neg hne, hq]
  by_cases hgate : b = false ∨ cacheIsExpired c sheet w.now = true
  · obtain ⟨snap, hall⟩ := handleSheet_get_ok b w c sheet _ hgate hget
    rw [hall []] at hget ⊢
    rw [hall query]
    rw [answer_nil] at hget
    have hS : S = some snap := by
      simp only [Option.some.injEq, Prod.mk.injEq, true_and, Data.sheet.injEq] at hget
      exact hget.symm
    rw [hS]
    exact ⟨hans _, rfl, rfl⟩
  · have hb : b = true := by
      cases b
      · exact absurd (Or.inl rfl) hgate
      · rfl
    have he : cacheIsExpired c sheet w.now = false := by
      cases h : cacheIsExpired c sheet w.now
      · rfl
      · exact absurd (Or.inr h) hgate
    subst hb
    rw [handleSheet_cached w c sheet [] he] at hget ⊢
    rw [handleSheet_cached w c sheet query he]
    rw [answer_nil] at hget
    have hS : S = c.configData.get? sheet := by
      simp only [Option.some.injEq, Prod.mk.injEq, true_and, Data.sheet.injEq] at hget
      exact hget.symm
    rw [hS]
    exact ⟨hans _, rfl, rfl⟩

/-- C10 at the example sheet, whose snapshot is {a: 1, b: "x"}: the key "a"
is answered with 200 and Int64(1), the key "nope" with 404. -/
theorem handleSheet_key_lookup_witness :
    (handleSheet false sampleWorld ⟨[], []⟩ "cfg" [("key", ["a"])]).ret
      = some (200, .value (Value.int64 1)) ∧
    (handleSheet false sampleWorld ⟨[], []⟩ "cfg" [("key", ["nope"])]).ret
      = some (404, .value (Value.str "Error: key nope is not in sheet.")) := by
  have ha := (handleSheet_key_lookup false sampleWorld ⟨[], []⟩ "cfg"
    (some [("b", Value.str "x"), ("a", Value.int64 1)]) [("key", ["a"])] "a" []
    (by decide) (by decide)).1
  have hn := (handleSheet_key_lookup false sampleWorld ⟨[], []⟩ "cfg"
    (some [("b", Value.str "x"), ("a", Value.int64 1)]) [("key", ["nope"])] "nope" []
    (by decide) (by decide)).1
  exact ⟨ha.trans (by decide), hn.trans (by decide)⟩

/-! ## Token renewal -/

theorem renewalDue_iff (expiry now : Int) :
    Time.Sub expiry now < TOKEN_REFRESH_INTERVAL + 5 * 60 * Second ↔
      expiry - now < 35 * 60 * Second := by
  simp only [Time.Sub, TOKEN_REFRESH_INTERVAL, Second, maxInt64, minInt64]
  norm_num
  have key : ∀ d : Int,
      (if 9223372036854775807 < d then (9223372036854775807 : Int)
       else if d < -9223372036854775808 then -9223372036854775808 else d) < 2100000000000 ↔
      d < 2100000000000 := by
    intro d
    split_ifs <;> omega
  exact key (expiry - now)

/-- The run of `refreshToken` once the token and the configuration are
loaded. -/
theorem refreshToken_loaded (w : World) (tok : Token) (b : String) (cfg : OAuthConfig)
    (htok : tokenFromFile w = .ok tok) (hcred : w.readCredentials = .ok b)
    (hcfg : w.ConfigFromJSON b = .ok cfg) :
    refreshToken w =
      if Time.Sub tok.Expiry w.nowTick < TOKEN_REFRESH_INTERVAL + 5 * 60 * Second then
        match w.postForm TOKEN_URL (refreshForm cfg tok) with
        | .error err =>
          ⟨.returned, .untouched,
            [.readFile TOKEN_FILE, .readFile CREDENTIALS_FILE,
              .postForm TOKEN_URL (refreshForm cfg tok)], [.errorRenewing err]⟩
        | .ok (.error err) =>
          ⟨.returned, .untouched,
            [.readFile TOKEN_FILE, .readFile CREDENTIALS_FILE,
              .postForm TOKEN_URL (refreshForm cfg tok)], [.errorRenewing err]⟩
        | .ok (.ok body) =>
          match (w.jsonUnmarshal body).bind (fun m => m.get? "expires_in") with
          | some (.number f) =>
            match (w.jsonUnmarshal body).bind (fun m => m.get? "access_token") with
            | some (.string accessToken) =>
              match saveToken w { tok with
                  Expiry := Time.Add w.nowThen (wrapInt64 (durationOfFloat w f * Second)),
                  AccessToken := accessToken } with
              | (.returned, fw) =>
                ⟨.returned, fw,
                  [.readFile TOKEN_FILE, .readFile CREDENTIALS_FILE,
                    .postForm TOKEN_URL (refreshForm cfg tok), .openFileTrunc TOKEN_FILE],
                  [.refreshed]⟩
              | (e, fw) =>
                ⟨e, fw,
                  [.readFile TOKEN_FILE, .readFile CREDENTIALS_FILE,
                    .postForm TOKEN_URL (refreshForm cfg tok), .openFileTrunc TOKEN_FILE], []⟩
            | _ =>
              ⟨.panicked, .untouched,
                [.readFile TOKEN_FILE, .readFile CREDENTIALS_FILE,
                  .postForm TOKEN_URL (refreshForm cfg tok)], []⟩
          | _ =>
            ⟨.panicked, .untouched,
              [.readFile TOKEN_FILE, .readFile CREDENTIALS_FILE,
                .postForm TOKEN_URL (refreshForm cfg tok)], []⟩
      else
        ⟨.returned, .untouched, [.readFile TOKEN_FILE, .readFile CREDENTIALS_FILE], [.noNeed]⟩ := by
  unfold refreshToken
  simp only [htok, hcred, hcfg]
  rfl

theorem durationOfFloat_floor (w : World) (q : ℚ) (h0 : 0 ≤ q)
    (hhi : ⌊q⌋ * Second ≤ maxInt64) :
    wrapInt64 (durationOfFloat w (.finite q) * Second) = ⌊q⌋ * Second := by
  have hnum : 0 ≤ q.num := Rat.num_nonneg.2 h0
  have hden : (0 : Int) ≤ (q.den : Int) := Int.ofNat_nonneg _
  have hq : Int.tdiv q.num q.den = ⌊q⌋ := by
    rw [Int.tdiv_eq_ediv hnum hden, Rat.floor_def]
  have hf0 : 0 ≤ ⌊q⌋ := Int.floor_nonneg.2 h0
  generalize ⌊q⌋ = n at hq hf0 hhi
  simp only [maxInt64, Second] at hhi
  have hr : minInt64 ≤ n ∧ n ≤ maxInt64 := by
    simp only [minInt64, maxInt64]
    constructor <;> omega
  simp only [durationOfFloat, hq, hr, and_self, if_true, wrapInt64, Second]
  norm_num
  omega

theorem clientConfig_eq_some (w : World) (cfg : OAuthConfig) (h : w.clientConfig = some cfg) :
    ∃ b, w.readCredentials = .ok b ∧ w.ConfigFromJSON b = .ok cfg := by
  unfold World.clientConfig at h
  cases h1 : w.readCredentials with
  | error e => rw [h1] at h; simp at h
  | ok b =>
    rw [h1] at h
    dsimp only at h
    cases h2 : w.ConfigFromJSON b with
    | error e => rw [h2] at h; simp at h
    | ok c =>
      rw [h2] at h
      simp only [Option.some.injEq] at h
      exact ⟨b, rfl, by rw [h2, h]⟩

/-- The run of `refreshToken` when the token is stored and the client
configuration cannot be loaded. -/
theorem refreshToken_no_config (w : World) (tok : Token) (htok : tokenFromFile w = .ok tok)
    (h : w.clientConfig = none) :
    ∃ err, refreshToken w =
      ⟨.returned, .untouched, [.readFile TOKEN_FILE, .readFile CREDENTIALS_FILE],
        [.errorRenewing err]⟩ := by
  unfold World.clientConfig at h
  unfold refreshToken
  simp only [htok]
  cases h1 : w.readCredentials with
  | error e => exact ⟨e, rfl⟩
  | ok b =>
    rw [h1] at h
    dsimp only at h ⊢
    cases h2 : w.ConfigFromJSON b with
    | error e => exact ⟨e, rfl⟩
    | ok c => rw [h2] at h; simp at h

/-- A response without a numeric `expires_in` (an invalid-grant error body, a
body that is not a JSON object) makes the type assertion of line 317 panic. -/
theorem refreshToken_no_expires_in (w : World) (tok : Token) (b : String) (cfg : OAuthConfig)
    (body : String)
    (htok : tokenFromFile w = .ok tok) (hcred : w.readCredentials = .ok b)
    (hcfg : w.ConfigFromJSON b = .ok cfg)
    (hdue : tok.Expiry - w.nowTick < 35 * 60 * Second)
    (hpost : w.postForm TOKEN_URL (refreshForm cfg tok) = .ok (.ok body))
    (hno : ∀ f, (w.jsonUnmarshal body).bind (fun m => m.get? "expires_in") ≠ some (.number f)) :
    (refreshToken w).exit = .panicked ∧ (refreshToken w).tokenFile = .untouched := by
  rw [refreshToken_loaded w tok b cfg htok hcred hcfg,
    if_pos ((renewalDue_iff _ _).2 hdue), hpost]
  dsimp only
  split
  · rename_i f hf
    exact absurd hf (hno f)
  · exact ⟨rfl, rfl⟩

/-- An invalid-grant error body makes `refreshToken` panic. -/
theorem refreshToken_invalid_grant :
    (refreshToken invalidGrantWorld).exit = .panicked ∧
    (refreshToken invalidGrantWorld).tokenFile = .untouched :=
  refreshToken_no_expires_in invalidGrantWorld sampleToken "cred"
    { ClientID := "id", ClientSecret := "secret" } "body"
    (by decide) (by decide) (by decide) (by decide) (by decide)
    (by
      intro f h
      have hnone : (invalidGrantWorld.jsonUnmarshal "body").bind
          (fun m => m.get? "expires_in") = none := by decide
      rw [hnone] at h
      cases h)

/-! ## Claims about `refreshToken` -/

/-- C8, counterexample: the token is due for renewal, the token endpoint
answers with a new access token, the token file cannot be opened for writing:
`saveToken` calls `log.Fatalf` and the process exits. -/
theorem refreshToken_save_failure_exits :
    readOnlyWorld.openTokenFile = some "permission denied" ∧
    (refreshToken readOnlyWorld).exit = Exit.fatal ∧
    (refreshToken readOnlyWorld).exit ≠ Exit.returned := by
  decide

/-- C8, amended: a tick whose renewal fails because the token file or the
credentials file cannot be read or parsed, because the refresh request returns
a network error, or because the response body cannot be read, returns
normally, logs the error and leaves the token file as it was; a tick whose
token file cannot be opened for writing ends the process through
`log.Fatalf`, the token file left as it was. -/
theorem refreshToken_failure (w : World) :
    (∀ err, tokenFromFile w = .error err →
      (refreshToken w).exit = .returned ∧ (refreshToken w).tokenFile = .untouched ∧
      (refreshToken w).out = [.errorRenewing err]) ∧
    (∀ tok err, tokenFromFile w = .ok tok → w.readCredentials = .error err →
      (refreshToken w).exit = .returned ∧ (refreshToken w).tokenFile = .untouched ∧
      (refreshToken w).out = [.errorRenewing err]) ∧
    (∀ tok b err, tokenFromFile w = .ok tok → w.readCredentials = .ok b →
      w.ConfigFromJSON b = .error err →
      (refreshToken w).exit = .returned ∧ (refreshToken w).tokenFile = .untouched ∧
      (refreshToken w).out = [.errorRenewing err]) ∧
    (∀ tok b cfg err, tokenFromFile w = .ok tok → w.readCredentials = .ok b →
      w.ConfigFromJSON b = .ok cfg → tok.Expiry - w.nowTick < 35 * 60 * Second →
      (w.postForm TOKEN_URL (refreshForm cfg tok) = .error err ∨
        w.postForm TOKEN_URL (refreshForm cfg tok) = .ok (.error err)) →
      (refreshToken w).exit = .returned ∧ (refreshToken w).tokenFile = .untouched ∧
      (refreshToken w).out = [.errorRenewing err]) ∧
    (∀ tok b cfg body m f a err, tokenFromFile w = .ok tok → w.readCredentials = .ok b →
      w.ConfigFromJSON b = .ok cfg → tok.Expiry - w.nowTick < 35 * 60 * Second →
      w.postForm TOKEN_URL (refreshForm cfg tok) = .ok (.ok body) →
      w.jsonUnmarshal body = some m → m.get? "expires_in" = some (.number f) →
      m.get? "access_token" = some (.string a) → w.openTokenFile = some err →
      (refreshToken w).exit = .fatal ∧ (refreshToken w).tokenFile = .untouched) := by
  refine ⟨?_, ?_, ?_, ?_, ?_⟩
  · intro err h
    simp [refreshToken, h]
  · intro tok err h1 h2
    simp [refreshToken, h1, h2]
  · intro tok b err h1 h2 h3
    simp [refreshToken, h1, h2, h3]
  · intro tok b cfg err h1 h2 h3 hdue hpost
    rw [refreshToken_loaded w tok b cfg h1 h2 h3, if_pos ((renewalDue_iff _ _).2 hdue)]
    rcases hpost with hpost | hpost <;> rw [hpost] <;> exact ⟨rfl, rfl, rfl⟩
  · intro tok b cfg body m f a err h1 h2 h3 hdue hpost hm hf ha hopen
    rw [refreshToken_loaded w tok b cfg h1 h2 h3, if_pos ((renewalDue_iff _ _).2 hdue), hpost]
    simp only [hm, Option.some_bind, hf, ha, saveToken, hopen]
    exact ⟨trivial, trivial⟩

/-- C8, amended, at the example worlds: an unreachable token endpoint and a
token file that cannot be opened for writing. -/
theorem refreshToken_failure_witness :
    ((refreshToken unreachableWorld).exit = .returned ∧
      (refreshToken unreachableWorld).tokenFile = .untouched ∧
      (refreshToken unreachableWorld).out = [.errorRenewing "dial tcp: timeout"]) ∧
    ((refreshToken readOnlyWorld).exit = .fatal ∧
      (refreshToken readOnlyWorld).tokenFile = .untouched) :=
  ⟨(refreshToken_failure unreachableWorld).2.2.2.1 sampleToken "cred"
      { ClientID := "id", ClientSecret := "secret" } "dial tcp: timeout"
      (by decide) (by decide) (by decide) (by decide) (Or.inl (by decide)),
   (refreshToken_failure readOnlyWorld).2.2.2.2 sampleToken "cred"
      { ClientID := "id", ClientSecret := "secret" } "body"
      [("access_token", .string "at1"), ("expires_in", .number (.finite 3600))]
      (.finite 3600) "at1" "permission denied"
      (by decide) (by decide) (by decide) (by decide) (by decide) (by decide) (by decide)
      (by decide) (by decide)⟩

/-- C9, counterexample: the stored token has 2000 seconds left at the tick,
fewer than 35 minutes, and the credentials file cannot be read: no refresh
request is issued. When the renewal succeeds with 3600 seconds granted, the
tick read at second 2000 and the clock after the response at second 2001,
the expiry written is second 5601, not second 5600; with 3599.5 seconds
granted and the clock at second 2000, it is second 5599. -/
theorem refreshToken_due_without_request :
    tokenFromFile noCredentialsWorld = .ok sampleToken ∧
    sampleToken.Expiry - noCredentialsWorld.nowTick
      < TOKEN_REFRESH_INTERVAL + 5 * 60 * Second ∧
    refreshRequests (refreshToken noCredentialsWorld).trace = 0 ∧
    (refreshToken noCredentialsWorld).trace
      = [.readFile "token.json", .readFile "credentials.json"] ∧
    sampleWorld.nowTick + 3600 * Second = 5600 * Second ∧
    (refreshToken sampleWorld).tokenFile
      = .wrote { sampleToken with Expiry := 5601 * Second, AccessToken := "at1" } ∧
    (refreshToken halfSecondWorld).tokenFile
      = .wrote { sampleToken with Expiry := 5599 * Second, AccessToken := "at1" } := by
  decide

/-- C9, amended: for a stored token, at most one request is sent to the token
endpoint, and one only if `expiry - now < TOKEN_REFRESH_INTERVAL + 5 minutes`,
which is 35 minutes, `now` being the clock at the test; at or beyond the
threshold, and when the credentials file cannot be read or parsed, no
request is sent, nothing is written and the tick returns. When the
credentials file is read and parsed, the refresh-grant request (client id,
client secret, the stored refresh token and grant type `refresh_token`,
posted to the token endpoint) is sent exactly when the remaining lifetime is
below the threshold; when the renewal succeeds with a non-negative
`expires_in` within the `Duration` range, the token written has the returned
access token and the expiry `then + ⌊expires_in⌋` seconds, `then` being the
clock read after the response, the other fields unchanged. -/
theorem refreshToken_threshold (w : World) (tok : Token)
    (htok : tokenFromFile w = .ok tok) :
    TOKEN_REFRESH_INTERVAL + 5 * 60 * Second = 35 * 60 * Second ∧
    refreshRequests (refreshToken w).trace ≤ 1 ∧
    (refreshRequests (refreshToken w).trace = 1 →
      tok.Expiry - w.nowTick < TOKEN_REFRESH_INTERVAL + 5 * 60 * Second) ∧
    (¬ (tok.Expiry - w.nowTick < TOKEN_REFRESH_INTERVAL + 5 * 60 * Second) →
      refreshRequests (refreshToken w).trace = 0 ∧
      (refreshToken w).tokenFile = .untouched ∧ (refreshToken w).exit = .returned) ∧
    (w.clientConfig = none →
      refreshRequests (refreshToken w).trace = 0 ∧
      (refreshToken w).tokenFile = .untouched ∧ (refreshToken w).exit = .returned) ∧
    (∀ cfg : OAuthConfig, w.clientConfig = some cfg →
      (refreshRequests (refreshToken w).trace = 1 ↔
        tok.Expiry - w.nowTick < TOKEN_REFRESH_INTERVAL + 5 * 60 * Second) ∧
      (Effect.postForm "https://www.googleapis.com/oauth2/v3/token"
          [("client_id", [cfg.ClientID]), ("client_secret", [cfg.ClientSecret]),
           ("refresh_token", [tok.RefreshToken]), ("grant_type", ["refresh_token"])]
          ∈ (refreshToken w).trace ↔
        tok.Expiry - w.nowTick < TOKEN_REFRESH_INTERVAL + 5 * 60 * Second) ∧
      (¬ (tok.Expiry - w.nowTick < TOKEN_REFRESH_INTERVAL + 5 * 60 * Second) →
        refreshToken w =
          ⟨.returned, .untouched, [.readFile "token.json", .readFile "credentials.json"],
            [.noNeed]⟩) ∧
      (∀ (body : String) (m : GoMap JSON) (q : ℚ) (a : String),
        tok.Expiry - w.nowTick < TOKEN_REFRESH_INTERVAL + 5 * 60 * Second →
        w.postForm TOKEN_URL (refreshForm cfg tok) = .ok (.ok body) →
        w.jsonUnmarshal body = some m →
        m.get? "expires_in" = some (.number (.finite q)) →
        m.get? "access_token" = some (.string a) →
        0 ≤ q → ⌊q⌋ * Second ≤ maxInt64 →
        w.openTokenFile = none → w.encodeOk = true →
        (refreshToken w).exit = .returned ∧
        (refreshToken w).tokenFile
          = .wrote { tok with Expiry := w.nowThen + ⌊q⌋ * Second, AccessToken := a } ∧
        (refreshToken w).out = [.refreshed])) := by
  have h35 : TOKEN_REFRESH_INTERVAL + 5 * 60 * Second = 35 * 60 * Second := by
    norm_num [TOKEN_REFRESH_INTERVAL, Second]
  have hdue_iff := renewalDue_iff tok.Expiry w.nowTick
  rw [h35]
  -- the runs with the configuration loaded
  have hloaded : ∀ cfg : OAuthConfig, w.clientConfig = some cfg →
      (tok.Expiry - w.nowTick < 35 * 60 * Second →
        refreshRequests (refreshToken w).trace = 1 ∧
        Effect.postForm TOKEN_URL (refreshForm cfg tok) ∈ (refreshToken w).trace) ∧
      (¬ (tok.Expiry - w.nowTick < 35 * 60 * Second) →
        refreshToken w =
          ⟨.returned, .untouched, [.readFile TOKEN_FILE, .readFile CREDENTIALS_FILE],
            [.noNeed]⟩) := by
    intro cfg hc
    obtain ⟨b, hcred, hcfg⟩ := clientConfig_eq_some w cfg hc
    have hform := refreshToken_loaded w tok b cfg htok hcred hcfg
    constructor
    · intro hdue
      rw [if_pos (hdue_iff.2 hdue)] at hform
      rw [hform]
      cases hp : w.postForm TOKEN_URL (refreshForm cfg tok) with
      | error err => exact ⟨by simp [refreshRequests, List.countP_cons], by simp⟩
      | ok resp =>
        cases resp with
        | error err => exact ⟨by simp [refreshRequests, List.countP_cons], by simp⟩
        | ok body =>
          dsimp only
          split
          · split
            · split
              · exact ⟨by simp [refreshRequests, List.countP_cons], by simp⟩
              · exact ⟨by simp [refreshRequests, List.countP_cons], by simp⟩
            · exact ⟨by simp [refreshRequests, List.countP_cons], by simp⟩
          · exact ⟨by simp [refreshRequests, List.countP_cons], by simp⟩
    · intro hdue
      rw [if_neg (fun h => hdue (hdue_iff.1 h))] at hform
      exact hform
  have hnone : w.clientConfig = none →
      refreshRequests (refreshToken w).trace = 0 ∧
      (refreshToken w).tokenFile = .untouched ∧ (refreshToken w).exit = .returned := by
    intro hc
    obtain ⟨err, h⟩ := refreshToken_no_config w tok htok hc
    rw [h]
    exact ⟨rfl, rfl, rfl⟩
  refine ⟨rfl, ?_, ?_, ?_, hnone, ?_⟩
  · cases hc : w.clientConfig with
    | none => rw [(hnone hc).1]; decide
    | some cfg =>
      by_cases hdue : tok.Expiry - w.nowTick < 35 * 60 * Second
      · rw [((hloaded cfg hc).1 hdue).1]
      · rw [(hloaded cfg hc).2 hdue]; decide
  · intro h1
    cases hc : w.clientConfig with
    | none => rw [(hnone hc).1] at h1; exact absurd h1 (by decide)
    | some cfg =>
      by_contra hdue
      rw [(hloaded cfg hc).2 hdue] at h1
      exact absurd h1 (by decide)
  · intro hdue
    cases hc : w.clientConfig with
    | none => exact hnone hc
    | some cfg =>
      rw [(hloaded cfg hc).2 hdue]
      exact ⟨by decide, rfl, rfl⟩
  · intro cfg hc
    refine ⟨⟨?_, fun hdue => ((hloaded cfg hc).1 hdue).1⟩,
      ⟨?_, fun hdue => ((hloaded cfg hc).1 hdue).2⟩, (hloaded cfg hc).2, ?_⟩
    · intro h1
      by_contra hdue
      rw [(hloaded cfg hc).2 hdue] at h1
      exact absurd h1 (by decide)
    · intro hmem
      by_contra hdue
      rw [(hloaded cfg hc).2 hdue] at hmem
      simp at hmem
    · intro body m q a hdue hpost hm hexp hacc h0 hhi hopen henc
      obtain ⟨b, hcred, hcfg⟩ := clientConfig_eq_some w cfg hc
      rw [refreshToken_loaded w tok b cfg htok hcred hcfg, if_pos (hdue_iff.2 hdue), hpost]
      simp only [hm, Option.some_bind, hexp, hacc, saveToken, hopen, henc, if_true,
        durationOfFloat_floor w q h0 hhi, Time.Add]
      exact ⟨trivial, trivial, trivial⟩

/-- C9, amended, at the examples: at second 1000 the token, expiring at second
4000, has 3000 seconds left and nothing is requested or written; at second
2000 it has 2000 seconds left, fewer than 2100, the endpoint grants 3600
seconds and the clock then reads second 2001, so the token written expires
at second 5601; with the credentials file missing nothing is requested. -/
theorem refreshToken_threshold_witness :
    (refreshRequests (refreshToken earlyWorld).trace = 0 ∧
      (refreshToken earlyWorld).tokenFile = .untouched ∧
      (refreshToken earlyWorld).exit = .returned) ∧
    (refreshRequests (refreshToken noCredentialsWorld).trace = 0 ∧
      (refreshToken noCredentialsWorld).tokenFile = .untouched ∧
      (refreshToken noCredentialsWorld).exit = .returned) ∧
    ((refreshToken sampleWorld).exit = .returned ∧
      (refreshToken sampleWorld).tokenFile
        = .wrote { sampleToken with
            Expiry := sampleWorld.nowThen + ⌊(3600 : ℚ)⌋ * Second, AccessToken := "at1" } ∧
      (refreshToken sampleWorld).out = [.refreshed]) :=
  ⟨(refreshToken_threshold earlyWorld sampleToken (by decide)).2.2.2.1 (by decide),
   (refreshToken_threshold noCredentialsWorld sampleToken (by decide)).2.2.2.2.1 (by decide),
   ((refreshToken_threshold sampleWorld sampleToken (by decide)).2.2.2.2.2
      { ClientID := "id", ClientSecret := "secret" } (by decide)).2.2.2
    "body" [("access_token", .string "at1"), ("expires_in", .number (.finite 3600))]
    3600 "at1" (by decide) (by decide) (by decide) (by decide) (by decide) (by norm_num)
    (by simp [Second, maxInt64]) (by decide) (by decide)⟩

end RemoteConfig
